import Mathlib

/-!
Shallow embedding of the recurring-job watchdog / liveness supervisor core of
`rei_cloud_automation.py` (plus the state-persistence helpers), and proofs of
the specification's claims about it.

Timestamps are modelled as natural numbers counting seconds since an epoch
whose day 0 is a Thursday (Python `weekday()` convention, Monday = 0), matching
the Unix epoch used by `datetime`.  A `datetime.date` is the day number
`t / 86400`; `datetime.combine(d, time(h, m))` is `d * 86400 + h * 3600 + m * 60`.
-/

namespace REIAutomation

/-- Seconds per calendar day. -/
def secPerDay : Nat := 86400

/-- `t.date()`: the day number of a timestamp. -/
def date (t : Nat) : Nat := t / secPerDay

/-- `datetime.combine(d, datetime.min.time().replace(hour := h, minute := m))`:
day number `d` at time-of-day `h:m`. -/
def combine (d hour minute : Nat) : Nat := d * secPerDay + hour * 3600 + minute * 60

/-- `d.weekday()` with Monday = 0 (day 0 of the epoch is a Thursday, weekday 3). -/
def weekday (d : Nat) : Nat := (d + 3) % 7

/-- `SCHEDULED_RUN_HOUR = 6` from the source. -/
def SCHEDULED_RUN_HOUR : Nat := 6

/-- `SCHEDULED_RUN_MINUTE = 1` from the source. -/
def SCHEDULED_RUN_MINUTE : Nat := 1

/-- `GRACE_PERIOD_MINUTES = 10` from the source. -/
def GRACE_PERIOD_MINUTES : Nat := 10

/-- `WEEKLY_SCHEDULED_DAY = 5` (Saturday) from the source. -/
def WEEKLY_SCHEDULED_DAY : Nat := 5

/-- `WEEKLY_SCHEDULED_HOUR = 10` from the source. -/
def WEEKLY_SCHEDULED_HOUR : Nat := 10

/-- `WEEKLY_SCHEDULED_MINUTE = 0` from the source. -/
def WEEKLY_SCHEDULED_MINUTE : Nat := 0

/-- `WEEKLY_GRACE_PERIOD_MINUTES = 10` from the source. -/
def WEEKLY_GRACE_PERIOD_MINUTES : Nat := 10

/-- The persisted JSON state object of `automation_state.json`.  Each field is
`none` when the corresponding key is absent from the mapping.  The legacy
`last_run_date` field carried a bare calendar date, so it is a day number;
the other four fields carry full timestamps. -/
structure PyState where
  last_run_date : Option Nat
  last_successful_run : Option Nat
  next_expected_run : Option Nat
  last_successful_weekly_run : Option Nat
  next_expected_weekly_run : Option Nat
deriving DecidableEq, Repr

/-- `load_state()` on a missing or unreadable file: the empty mapping `{}`. -/
def emptyState : PyState :=
  { last_run_date := none
    last_successful_run := none
    next_expected_run := none
    last_successful_weekly_run := none
    next_expected_weekly_run := none }

/-- The condition of the state file on disk as seen by `load_state`:
missing, present but unparseable (`json.load` raises), or valid. -/
inductive StateFile
  | missing
  | corrupt
  | valid (s : PyState)
deriving DecidableEq, Repr

/-- `load_state()`: returns the parsed mapping when the file exists and parses;
a missing file or a `json.load` failure falls through to `return {}` (the
`except: pass` path), never propagating an exception. -/
def load_state : StateFile → PyState
  | StateFile.valid s => s
  | _ => emptyState

/-- `get_next_scheduled_time(from_time)`: tomorrow at
`SCHEDULED_RUN_HOUR:SCHEDULED_RUN_MINUTE`. -/
def get_next_scheduled_time (from_time : Nat) : Nat :=
  combine (date from_time + 1) SCHEDULED_RUN_HOUR SCHEDULED_RUN_MINUTE

/-- `get_next_weekly_scheduled_time(from_time)`:
`days_ahead = WEEKLY_SCHEDULED_DAY - from_time.weekday()`;
`if days_ahead <= 0: days_ahead += 7`; then the date `days_ahead` days out at
`WEEKLY_SCHEDULED_HOUR:WEEKLY_SCHEDULED_MINUTE`. -/
def get_next_weekly_scheduled_time (from_time : Nat) : Nat :=
  let days_ahead : Int := (WEEKLY_SCHEDULED_DAY : Int) - (weekday (date from_time) : Int)
  let days_ahead : Int := if days_ahead ≤ 0 then days_ahead + 7 else days_ahead
  combine (date from_time + days_ahead.toNat) WEEKLY_SCHEDULED_HOUR WEEKLY_SCHEDULED_MINUTE

/-- `save_successful_run()` at wall-clock `now`: reload the mapping, set
`last_successful_run = now` and `next_expected_run = get_next_scheduled_time(now)`,
save. -/
def save_successful_run (now : Nat) (s : PyState) : PyState :=
  { s with
    last_successful_run := some now
    next_expected_run := some (get_next_scheduled_time now) }

/-- `save_successful_weekly_run()` at wall-clock `now`. -/
def save_successful_weekly_run (now : Nat) (s : PyState) : PyState :=
  { s with
    last_successful_weekly_run := some now
    next_expected_weekly_run := some (get_next_weekly_scheduled_time now) }

/-- The migration block at the top of `init_state_if_needed`: if `last_run_date`
is present and `last_successful_run` absent, combine the legacy date with the
scheduled time-of-day, store it as `last_successful_run` and delete the legacy
key; otherwise leave the mapping unchanged. -/
def migrate_legacy_state (s : PyState) : PyState :=
  match s.last_run_date, s.last_successful_run with
  | some old_date, none =>
      { s with
        last_successful_run :=
          some (combine old_date SCHEDULED_RUN_HOUR SCHEDULED_RUN_MINUTE)
        last_run_date := none }
  | _, _ => s

/-- `init_state_if_needed()` at wall-clock `now`: run the legacy migration, then
if `next_expected_run` is absent set it to today at the scheduled time when
`now` precedes that time, else to `get_next_scheduled_time(now)` (tomorrow). -/
def init_state_if_needed (now : Nat) (s0 : PyState) : PyState :=
  match (migrate_legacy_state s0).next_expected_run with
  | some _ => migrate_legacy_state s0
  | none =>
      let today_scheduled := combine (date now) SCHEDULED_RUN_HOUR SCHEDULED_RUN_MINUTE
      if now < today_scheduled then
        { migrate_legacy_state s0 with next_expected_run := some today_scheduled }
      else
        { migrate_legacy_state s0 with
          next_expected_run := some (get_next_scheduled_time now) }

/-- `init_weekly_state_if_needed()` at wall-clock `now`:
`days_until_saturday = WEEKLY_SCHEDULED_DAY - now.weekday()`;
`if days_until_saturday < 0: days_until_saturday += 7` (note `<`, not `<=`);
the date `days_until_saturday` days out at the weekly time-of-day ("this
Saturday"): on the target weekday itself this is today, unlike
`get_next_weekly_scheduled_time`. -/
def this_saturday_scheduled (now : Nat) : Nat :=
  let days_until : Int := (WEEKLY_SCHEDULED_DAY : Int) - (weekday (date now) : Int)
  let days_until : Int := if days_until < 0 then days_until + 7 else days_until
  combine (date now + days_until.toNat) WEEKLY_SCHEDULED_HOUR WEEKLY_SCHEDULED_MINUTE

/-- `init_weekly_state_if_needed()` at wall-clock `now`: if
`next_expected_weekly_run` is absent, set it to this Saturday's scheduled time
when `now` precedes it, else to `get_next_weekly_scheduled_time(now)`. -/
def init_weekly_state_if_needed (now : Nat) (s : PyState) : PyState :=
  match s.next_expected_weekly_run with
  | some _ => s
  | none =>
      if now < this_saturday_scheduled now then
        { s with next_expected_weekly_run := some (this_saturday_scheduled now) }
      else
        { s with next_expected_weekly_run := some (get_next_weekly_scheduled_time now) }

/-- `is_past_deadline()` at wall-clock `now`: `(now > next_expected_run + grace,
next_expected_run, last_successful_run)`, with `(False, None, None)` when
`next_expected_run` is absent. -/
def is_past_deadline (now : Nat) (s : PyState) : Bool × Option Nat × Option Nat :=
  match s.next_expected_run with
  | none => (false, none, none)
  | some nr =>
      (decide (now > nr + GRACE_PERIOD_MINUTES * 60), some nr, s.last_successful_run)

/-- `is_past_weekly_deadline()` at wall-clock `now`. -/
def is_past_weekly_deadline (now : Nat) (s : PyState) : Bool × Option Nat × Option Nat :=
  match s.next_expected_weekly_run with
  | none => (false, none, none)
  | some nr =>
      (decide (now > nr + WEEKLY_GRACE_PERIOD_MINUTES * 60), some nr,
        s.last_successful_weekly_run)

/-- The in-memory alert-dedup variables of `main`:
`alert_sent_for_current_deadline` and `current_deadline_str` (here the parsed
deadline timestamp; ISO strings of distinct timestamps are distinct). -/
structure Tracker where
  alert_sent_for_current_deadline : Bool
  current_deadline : Option Nat
deriving DecidableEq, Repr

/-- The dedup variables as initialised just before the main loop:
`alert_sent_for_current_deadline = False`, `current_deadline_str = None`. -/
def tracker0 : Tracker :=
  { alert_sent_for_current_deadline := false, current_deadline := none }

/-- One evaluation of the daily watchdog block of the main loop at wall-clock
`now`.  Returns the updated dedup variables and the number of missed-run
alerts sent (0 or 1).  The block never writes the persisted state. -/
def watchdog_tick (now : Nat) (s : PyState) (tr : Tracker) : Tracker × Nat :=
  let r := is_past_deadline now s
  match r.1, r.2.1 with
  | true, some nr =>
      let tr :=
        if some nr ≠ tr.current_deadline then
          { alert_sent_for_current_deadline := false, current_deadline := some nr }
        else tr
      if tr.alert_sent_for_current_deadline then (tr, 0)
      else
        let missed :=
          match r.2.2 with
          | none => true
          | some ls => decide (ls < nr)
        if missed then
          ({ tr with alert_sent_for_current_deadline := true }, 1)
        else
          ({ tr with alert_sent_for_current_deadline := true }, 0)
  | _, _ => (tr, 0)

/-- One evaluation of the weekly watchdog block of the main loop at wall-clock
`now` (verbatim duplicate of the daily block over the weekly fields). -/
def weekly_watchdog_tick (now : Nat) (s : PyState) (tr : Tracker) : Tracker × Nat :=
  let r := is_past_weekly_deadline now s
  match r.1, r.2.1 with
  | true, some nr =>
      let tr :=
        if some nr ≠ tr.current_deadline then
          { alert_sent_for_current_deadline := false, current_deadline := some nr }
        else tr
      if tr.alert_sent_for_current_deadline then (tr, 0)
      else
        let missed :=
          match r.2.2 with
          | none => true
          | some ls => decide (ls < nr)
        if missed then
          ({ tr with alert_sent_for_current_deadline := true }, 1)
        else
          ({ tr with alert_sent_for_current_deadline := true }, 0)
  | _, _ => (tr, 0)

/-- Iterate the daily watchdog block over a list of tick times with the
persisted state unchanged in between; returns the final dedup variables and
the total number of missed-run alerts sent. -/
def run_watchdog_ticks (s : PyState) : Tracker → List Nat → Tracker × Nat
  | tr, [] => (tr, 0)
  | tr, t :: ts =>
      let r := watchdog_tick t s tr
      let rest := run_watchdog_ticks s r.1 ts
      (rest.1, r.2 + rest.2)

/-- The state-relevant events of one pass of the main loop: a plain watchdog
tick, a report run that reached `save_successful_run` /
`save_successful_weekly_run`, or a report run that raised (its `except` block
sends a failure alert but touches no state). -/
inductive SupEvent
  | tick
  | dailySuccess
  | weeklySuccess
  | dailyFailure
  | weeklyFailure
deriving DecidableEq, Repr

/-- Effect of one event at wall-clock `now` on the persisted state.  Only the
two success paths write `next_expected_run` / `next_expected_weekly_run`; the
watchdog blocks and the failure handlers never do. -/
def apply_event (now : Nat) (e : SupEvent) (s : PyState) : PyState :=
  match e with
  | SupEvent.dailySuccess => save_successful_run now s
  | SupEvent.weeklySuccess => save_successful_weekly_run now s
  | _ => s

/-- One full pass of the main loop at wall-clock `now`: `schedule.run_pending()`
(the event), then the daily watchdog block, then the weekly watchdog block.
Returns the new state, both dedup trackers, and the number of missed-run
alerts sent on this pass. -/
def loop_step (now : Nat) (e : SupEvent) (st : PyState × Tracker × Tracker) :
    (PyState × Tracker × Tracker) × Nat :=
  let s := apply_event now e st.1
  let rd := watchdog_tick now s st.2.1
  let rw := weekly_watchdog_tick now s st.2.2
  ((s, rd.1, rw.1), rd.2 + rw.2)

/-- Iterate `loop_step` over a list of timed events, totalling the missed-run
alerts. -/
def run_loop (st : PyState × Tracker × Tracker) :
    List (Nat × SupEvent) → (PyState × Tracker × Tracker) × Nat
  | [] => (st, 0)
  | (t, e) :: rest =>
      let r := loop_step t e st
      let r2 := run_loop r.1 rest
      (r2.1, r.2 + r2.2)

/-- Token stream written by `json.dump(state, f, indent=2)` for a flat
string-valued object: an opening brace, one token per key/value entry, and the
closing brace last.  Keys and ISO-timestamp values contain no brace
characters, so entry tokens are distinct from the braces. -/
inductive JTok
  | lbrace
  | rbrace
  | entry (k v : String)
deriving DecidableEq, Repr

/-- The full serialization `save_state` writes: `open(STATE_FILE, "w")`
discards the previous content and `json.dump` emits the complete mapping,
every entry included, with the closing brace written last. -/
def serialize_obj (m : List (String × String)) : List JTok :=
  JTok.lbrace :: ((m.map fun kv => JTok.entry kv.1 kv.2) ++ [JTok.rbrace])

/-- `json.load` on the entry stream after the opening brace: succeeds exactly
when the stream is a sequence of entries terminated by the closing brace. -/
def parse_entries : List JTok → Option (List (String × String))
  | [JTok.rbrace] => some []
  | JTok.entry k v :: rest => (parse_entries rest).map fun es => (k, v) :: es
  | _ => none

/-- `json.load` of a flat object: an opening brace followed by a well-formed
entry stream; anything else fails to parse. -/
def parse_obj (ts : List JTok) : Option (List (String × String)) :=
  match ts with
  | JTok.lbrace :: rest => parse_entries rest
  | _ => none

/-- Outcomes `heartbeat_check()` observes from the browser session: the
individual checks of its `try` block, whether credentials are configured
(`REI_USERNAME and REI_PASSWORD`), and what `auto_login()` would return. -/
structure HbEnv where
  browser_running : Bool
  reports_nav_ok : Bool
  login_redirect_after_reports : Bool
  dashboard_nav_ok : Bool
  login_redirect_after_dashboard : Bool
  dashboard_marker_visible : Bool
  login_form_in_content : Bool
  creds_configured : Bool
  auto_login_ok : Bool
deriving DecidableEq, Repr

/-- The `try` block of `heartbeat_check` completes without raising iff the
browser is running, both navigations succeed without landing on a login URL,
and either the dashboard marker is visible or the fallback content check finds
no login form. -/
def liveness_passes (env : HbEnv) : Bool :=
  env.browser_running && env.reports_nav_ok && !env.login_redirect_after_reports &&
    env.dashboard_nav_ok && !env.login_redirect_after_dashboard &&
    (env.dashboard_marker_visible || !env.login_form_in_content)

/-- `heartbeat_check()`: on a clean liveness pass return `True` with no alert;
on a failure, if credentials are configured and `auto_login()` succeeds return
`True` silently, otherwise send exactly one failure alert and return `False`.
The function never reads or writes the persisted state, which is threaded
through unchanged. -/
def heartbeat_check (env : HbEnv) (s : PyState) : Bool × Nat × PyState :=
  if liveness_passes env then (true, 0, s)
  else if env.creds_configured && env.auto_login_ok then (true, 0, s)
  else (false, 1, s)

/-- Outcome of the email block shared by both report workflows:
`send_reports` returned `True`, returned `False`, the import of
`api_email_sender` failed, or `send_reports` raised. -/
inductive EmailOutcome
  | sent
  | sendFailed
  | notConfigured
  | sendError
deriving DecidableEq, Repr

/-- Tail of `run_daily_report` after the report-generation steps succeeded:
every branch of the email block falls through to `save_successful_run()`. -/
def run_daily_report_email_phase (outcome : EmailOutcome) (now : Nat) (s : PyState) :
    PyState :=
  match outcome with
  | EmailOutcome.sent => save_successful_run now s
  | EmailOutcome.sendFailed => save_successful_run now s
  | EmailOutcome.notConfigured => save_successful_run now s
  | EmailOutcome.sendError => save_successful_run now s

/-- Tail of `run_weekly_report` after the report-generation steps succeeded:
`save_successful_weekly_run()` is called only inside the
`if send_reports(...)` branch, so only when the email send reported success. -/
def run_weekly_report_email_phase (outcome : EmailOutcome) (now : Nat) (s : PyState) :
    PyState :=
  match outcome with
  | EmailOutcome.sent => save_successful_weekly_run now s
  | EmailOutcome.sendFailed => s
  | EmailOutcome.notConfigured => s
  | EmailOutcome.sendError => s

/-- Upper bound linking the stored deadlines to the last wall-clock instant
`t` at which they could have been written: any value ever stored in
`next_expected_run` (resp. `next_expected_weekly_run`) at or before time `t`
is at most the scheduler output for `t`. -/
def deadline_bounds (t : Nat) (s : PyState) : Prop :=
  (∀ nr, s.next_expected_run = some nr → nr ≤ get_next_scheduled_time t) ∧
    (∀ nw, s.next_expected_weekly_run = some nw → nw ≤ get_next_weekly_scheduled_time t)

/-- Modelled from the spec sentence of the claim: "returns the next date
on/after `reference` matching `cfg.dayOfWeek`, combined with `cfg.timeOfDay`" —
the least day number at or after the reference's date whose weekday is
`WEEKLY_SCHEDULED_DAY`, at the weekly time-of-day.  Used only to compare the
spec's wording with `get_next_weekly_scheduled_time`. -/
def spec_next_weekly_deadline (reference : Nat) : Nat :=
  let dt := date reference
  combine (dt + (7 - (dt + 5) % 7) % 7) WEEKLY_SCHEDULED_HOUR WEEKLY_SCHEDULED_MINUTE

lemma migrate_preserves_next_expected_run (s : PyState) :
    (migrate_legacy_state s).next_expected_run = s.next_expected_run := by
  cases hd : s.last_run_date <;> cases hl : s.last_successful_run <;>
    simp [migrate_legacy_state, hd, hl]

lemma migrate_preserves_weekly (s : PyState) :
    (migrate_legacy_state s).next_expected_weekly_run = s.next_expected_weekly_run := by
  cases hd : s.last_run_date <;> cases hl : s.last_successful_run <;>
    simp [migrate_legacy_state, hd, hl]

lemma lt_get_next_scheduled_time (t : Nat) : t < get_next_scheduled_time t := by
  unfold get_next_scheduled_time combine date secPerDay SCHEDULED_RUN_HOUR SCHEDULED_RUN_MINUTE
  omega

lemma date_get_next_scheduled_time (t : Nat) :
    date (get_next_scheduled_time t) = date t + 1 := by
  unfold get_next_scheduled_time combine date secPerDay SCHEDULED_RUN_HOUR SCHEDULED_RUN_MINUTE
  omega

lemma get_next_scheduled_time_mono {t t' : Nat} (h : t ≤ t') :
    get_next_scheduled_time t ≤ get_next_scheduled_time t' := by
  unfold get_next_scheduled_time combine date secPerDay SCHEDULED_RUN_HOUR SCHEDULED_RUN_MINUTE
  omega

lemma weekday_lt (d : Nat) : weekday d < 7 := by
  unfold weekday
  omega

lemma weekday_cases (d : Nat) :
    weekday d = 0 ∨ weekday d = 1 ∨ weekday d = 2 ∨ weekday d = 3 ∨ weekday d = 4 ∨
      weekday d = 5 ∨ weekday d = 6 := by
  have := weekday_lt d
  omega

lemma weekday_mod (d : Nat) : (d + 3) % 7 = weekday d := rfl

lemma weekly_day_characterization (t : Nat) :
    ∃ d, get_next_weekly_scheduled_time t =
        combine d WEEKLY_SCHEDULED_HOUR WEEKLY_SCHEDULED_MINUTE ∧
      date t < d ∧ d ≤ date t + 7 ∧ d % 7 = 2 := by
  have hmod := weekday_mod (date t)
  rcases weekday_cases (date t) with h | h | h | h | h | h | h <;>
    rw [h] at hmod <;>
    [exact ⟨date t + 5, by norm_num [get_next_weekly_scheduled_time, h,
        WEEKLY_SCHEDULED_DAY] <;> rfl, by omega, by omega, by omega⟩;
     exact ⟨date t + 4, by norm_num [get_next_weekly_scheduled_time, h,
        WEEKLY_SCHEDULED_DAY] <;> rfl, by omega, by omega, by omega⟩;
     exact ⟨date t + 3, by norm_num [get_next_weekly_scheduled_time, h,
        WEEKLY_SCHEDULED_DAY] <;> rfl, by omega, by omega, by omega⟩;
     exact ⟨date t + 2, by norm_num [get_next_weekly_scheduled_time, h,
        WEEKLY_SCHEDULED_DAY] <;> rfl, by omega, by omega, by omega⟩;
     exact ⟨date t + 1, by norm_num [get_next_weekly_scheduled_time, h,
        WEEKLY_SCHEDULED_DAY] <;> rfl, by omega, by omega, by omega⟩;
     exact ⟨date t + 7, by norm_num [get_next_weekly_scheduled_time, h,
        WEEKLY_SCHEDULED_DAY] <;> rfl, by omega, by omega, by omega⟩;
     exact ⟨date t + 6, by norm_num [get_next_weekly_scheduled_time, h,
        WEEKLY_SCHEDULED_DAY] <;> rfl, by omega, by omega, by omega⟩]

lemma combine_day_mono {a b : Nat} (hour minute : Nat) (h : a ≤ b) :
    combine a hour minute ≤ combine b hour minute := by
  unfold combine secPerDay
  have := Nat.mul_le_mul_right 86400 h
  omega

lemma get_next_weekly_scheduled_time_mono {t t' : Nat} (h : t ≤ t') :
    get_next_weekly_scheduled_time t ≤ get_next_weekly_scheduled_time t' := by
  obtain ⟨d, hd, h1, h2, h3⟩ := weekly_day_characterization t
  obtain ⟨d', hd', h1', h2', h3'⟩ := weekly_day_characterization t'
  have hdt : date t ≤ date t' := Nat.div_le_div_right h
  rw [hd, hd']
  exact combine_day_mono _ _ (by omega)

lemma init_state_if_needed_none (s : PyState) (now : Nat)
    (h : s.next_expected_run = none) :
    (init_state_if_needed now s).next_expected_run =
      some (if now < combine (date now) SCHEDULED_RUN_HOUR SCHEDULED_RUN_MINUTE
        then combine (date now) SCHEDULED_RUN_HOUR SCHEDULED_RUN_MINUTE
        else combine (date now + 1) SCHEDULED_RUN_HOUR SCHEDULED_RUN_MINUTE) := by
  have hm : (migrate_legacy_state s).next_expected_run = none :=
    (migrate_preserves_next_expected_run s).trans h
  unfold init_state_if_needed
  rw [hm]
  dsimp only
  split_ifs with hlt <;> simp [get_next_scheduled_time]

lemma init_preserves_weekly (now : Nat) (s : PyState) :
    (init_state_if_needed now s).next_expected_weekly_run =
      s.next_expected_weekly_run := by
  unfold init_state_if_needed
  cases h : (migrate_legacy_state s).next_expected_run with
  | none =>
    dsimp only
    split_ifs <;> simp [migrate_preserves_weekly]
  | some v => simp [migrate_preserves_weekly]

lemma init_weekly_none_value (s : PyState) (now : Nat)
    (h : s.next_expected_weekly_run = none) :
    (init_weekly_state_if_needed now s).next_expected_weekly_run =
      some (if now < this_saturday_scheduled now then this_saturday_scheduled now
        else get_next_weekly_scheduled_time now) := by
  unfold init_weekly_state_if_needed
  rw [h]
  dsimp only
  split_ifs with hlt <;> simp

lemma this_saturday_le_next_weekly (t : Nat) :
    this_saturday_scheduled t ≤ get_next_weekly_scheduled_time t := by
  rcases weekday_cases (date t) with h | h | h | h | h | h | h <;>
    simp only [this_saturday_scheduled, get_next_weekly_scheduled_time, h,
      WEEKLY_SCHEDULED_DAY] <;>
    norm_num <;>
    exact combine_day_mono _ _ (by omega)

lemma watchdog_tick_armed (now : Nat) (s : PyState) (D : Nat)
    (hD : s.next_expected_run = some D) :
    watchdog_tick now s
        { alert_sent_for_current_deadline := true, current_deadline := some D } =
      ({ alert_sent_for_current_deadline := true, current_deadline := some D }, 0) := by
  unfold watchdog_tick is_past_deadline
  rw [hD]
  by_cases h : D + GRACE_PERIOD_MINUTES * 60 < now <;> simp [h]

lemma run_watchdog_ticks_armed (s : PyState) (D : Nat) (ticks : List Nat)
    (hD : s.next_expected_run = some D) :
    run_watchdog_ticks s
        { alert_sent_for_current_deadline := true, current_deadline := some D } ticks =
      ({ alert_sent_for_current_deadline := true, current_deadline := some D }, 0) := by
  induction ticks with
  | nil => rfl
  | cons t ts ih => simp [run_watchdog_ticks, watchdog_tick_armed t s D hD, ih]

lemma watchdog_tick_first_alert (now : Nat) (s : PyState) (D : Nat) (tr : Tracker)
    (hD : s.next_expected_run = some D)
    (hls : ∀ ls, s.last_successful_run = some ls → ls < D)
    (hpast : D + GRACE_PERIOD_MINUTES * 60 < now)
    (htr : tr.current_deadline ≠ some D) :
    watchdog_tick now s tr =
      ({ alert_sent_for_current_deadline := true, current_deadline := some D }, 1) := by
  unfold watchdog_tick is_past_deadline
  rw [hD]
  have hne : some D ≠ tr.current_deadline := fun hc => htr hc.symm
  cases hlsr : s.last_successful_run with
  | none => simp [hpast, hne, hlsr]
  | some ls => simp [hpast, hne, hlsr, hls ls hlsr]

lemma weekly_watchdog_tick_unsat_alert (now : Nat) (s : PyState) (D : Nat)
    (hD : s.next_expected_weekly_run = some D)
    (hls : ∀ ls, s.last_successful_weekly_run = some ls → ls < D)
    (hpast : D + WEEKLY_GRACE_PERIOD_MINUTES * 60 < now) :
    (weekly_watchdog_tick now s tracker0).2 = 1 := by
  unfold weekly_watchdog_tick is_past_weekly_deadline
  rw [hD]
  cases hlsr : s.last_successful_weekly_run with
  | none => simp [hpast, hlsr, tracker0]
  | some ls => simp [hpast, hlsr, hls ls hlsr, tracker0]

lemma watchdog_tick_not_past (now : Nat) (s : PyState) (D : Nat) (tr : Tracker)
    (hD : s.next_expected_run = some D)
    (hnow : now ≤ D + GRACE_PERIOD_MINUTES * 60) :
    watchdog_tick now s tr = (tr, 0) := by
  unfold watchdog_tick is_past_deadline
  rw [hD]
  simp [Nat.not_lt.mpr hnow]

lemma init_daily_next_isSome (now : Nat) (s0 : PyState) :
    (init_state_if_needed now s0).next_expected_run.isSome = true := by
  unfold init_state_if_needed
  cases h : (migrate_legacy_state s0).next_expected_run with
  | none =>
    dsimp only
    split_ifs <;> simp
  | some v => simp [h]

lemma init_weekly_preserves_daily (now : Nat) (s : PyState) :
    (init_weekly_state_if_needed now s).next_expected_run = s.next_expected_run := by
  unfold init_weekly_state_if_needed
  cases h : s.next_expected_weekly_run with
  | none =>
    dsimp only
    split_ifs <;> simp
  | some v => rfl

lemma init_weekly_next_isSome (now : Nat) (s : PyState) :
    (init_weekly_state_if_needed now s).next_expected_weekly_run.isSome = true := by
  unfold init_weekly_state_if_needed
  cases h : s.next_expected_weekly_run with
  | none =>
    dsimp only
    split_ifs <;> simp
  | some v => simp [h]

lemma init_daily_bound (now : Nat) (s0 : PyState)
    (hb : ∀ nr, s0.next_expected_run = some nr → nr ≤ get_next_scheduled_time now) :
    ∀ nr, (init_state_if_needed now s0).next_expected_run = some nr →
      nr ≤ get_next_scheduled_time now := by
  intro nr hnr
  unfold init_state_if_needed at hnr
  rw [migrate_preserves_next_expected_run] at hnr
  cases h : s0.next_expected_run with
  | none =>
    rw [h] at hnr
    dsimp only at hnr
    split_ifs at hnr with hlt <;>
      simp only [migrate_preserves_next_expected_run, Option.some.injEq] at hnr
    · subst hnr
      unfold get_next_scheduled_time
      exact combine_day_mono _ _ (Nat.le_succ _)
    · subst hnr
      exact Nat.le_refl _
  | some v =>
    rw [h] at hnr
    dsimp only at hnr
    rw [migrate_preserves_next_expected_run, h] at hnr
    exact (Option.some.inj hnr) ▸ hb v h

lemma init_weekly_bound (now : Nat) (s : PyState)
    (hb : ∀ nw, s.next_expected_weekly_run = some nw →
      nw ≤ get_next_weekly_scheduled_time now) :
    ∀ nw, (init_weekly_state_if_needed now s).next_expected_weekly_run = some nw →
      nw ≤ get_next_weekly_scheduled_time now := by
  intro nw hnw
  unfold init_weekly_state_if_needed at hnw
  cases h : s.next_expected_weekly_run with
  | none =>
    rw [h] at hnw
    dsimp only at hnw
    split_ifs at hnw with hlt <;> simp only [Option.some.injEq] at hnw
    · exact hnw ▸ this_saturday_le_next_weekly now
    · exact hnw ▸ Nat.le_refl _
  | some v =>
    rw [h] at hnw
    dsimp only at hnw
    rw [h] at hnw
    exact (Option.some.inj hnw) ▸ hb v h

lemma parse_entries_serialize (m : List (String × String)) :
    parse_entries ((m.map fun kv => JTok.entry kv.1 kv.2) ++ [JTok.rbrace]) = some m := by
  induction m with
  | nil => rfl
  | cons kv rest ih => simp [parse_entries, ih]

lemma parse_entries_take (m : List (String × String)) (k : Nat)
    (hk : k < ((m.map fun kv => JTok.entry kv.1 kv.2) ++ [JTok.rbrace]).length) :
    parse_entries (((m.map fun kv => JTok.entry kv.1 kv.2) ++ [JTok.rbrace]).take k) =
      none := by
  induction m generalizing k with
  | nil =>
    simp only [List.map_nil, List.nil_append, List.length_cons, List.length_nil] at hk
    interval_cases k
    rfl
  | cons kv rest ih =>
    cases k with
    | zero => rfl
    | succ k' =>
      simp only [List.map_cons, List.cons_append, List.take_succ_cons, parse_entries,
        List.append_eq]
      rw [ih k' (by simpa using hk)]
      rfl

/-- C3 counterexample: at the reference 201600 (a Saturday, day 2, at 08:00,
before the 10:00 weekly time), the next date on/after the reference matching
the configured day-of-week is the reference's own date, so the spec reading
gives this Saturday 10:00 (208800); `get_next_weekly_scheduled_time` instead
skips to the following Saturday (813600), even though the reference is not
past this week's occurrence. -/
theorem weekly_deadline_spec_counterexample :
    date 201600 = 2 ∧ weekday 2 = WEEKLY_SCHEDULED_DAY ∧
    spec_next_weekly_deadline 201600 =
      combine 2 WEEKLY_SCHEDULED_HOUR WEEKLY_SCHEDULED_MINUTE ∧
    201600 < combine 2 WEEKLY_SCHEDULED_HOUR WEEKLY_SCHEDULED_MINUTE ∧
    get_next_weekly_scheduled_time 201600 =
      combine 9 WEEKLY_SCHEDULED_HOUR WEEKLY_SCHEDULED_MINUTE ∧
    get_next_weekly_scheduled_time 201600 ≠ spec_next_weekly_deadline 201600 := by
  decide

/-- C3 (amended): `get_next_weekly_scheduled_time` returns the next date
STRICTLY AFTER the reference's date that matches the configured day-of-week,
combined with the configured time-of-day; so whenever the reference falls on
or past that day-of-week this week — including on the target day itself, even
before the scheduled time — the result is 7 days later than this week's
occurrence. -/
theorem weekly_deadline_next_strictly_after (t : Nat) :
    ∃ d, get_next_weekly_scheduled_time t =
        combine d WEEKLY_SCHEDULED_HOUR WEEKLY_SCHEDULED_MINUTE ∧
      weekday d = WEEKLY_SCHEDULED_DAY ∧ date t < d ∧
      ∀ e, date t < e → weekday e = WEEKLY_SCHEDULED_DAY → d ≤ e := by
  obtain ⟨d, hd, h1, h2, h3⟩ := weekly_day_characterization t
  refine ⟨d, hd, ?_, h1, ?_⟩
  · unfold weekday WEEKLY_SCHEDULED_DAY
    omega
  · intro e he hwe
    unfold weekday WEEKLY_SCHEDULED_DAY at hwe
    omega

/-- C3 witness: the amended characterization evaluated at the concrete
reference 0 (a Thursday). -/
theorem weekly_deadline_next_strictly_after_witness :
    ∃ d, get_next_weekly_scheduled_time 0 =
        combine d WEEKLY_SCHEDULED_HOUR WEEKLY_SCHEDULED_MINUTE ∧
      weekday d = WEEKLY_SCHEDULED_DAY ∧ date 0 < d ∧
      ∀ e, date 0 < e → weekday e = WEEKLY_SCHEDULED_DAY → d ≤ e :=
  weekly_deadline_next_strictly_after 0

/-- C4: when `next_expected_run` is absent, `init_state_if_needed` at startup
time `now` sets it to today at the configured daily time if `now` precedes
that time, and to tomorrow at that time otherwise (at or after it). -/
theorem init_sets_today_or_tomorrow (s : PyState) (now : Nat)
    (h : s.next_expected_run = none) :
    (init_state_if_needed now s).next_expected_run =
      some (if now < combine (date now) SCHEDULED_RUN_HOUR SCHEDULED_RUN_MINUTE
        then combine (date now) SCHEDULED_RUN_HOUR SCHEDULED_RUN_MINUTE
        else combine (date now + 1) SCHEDULED_RUN_HOUR SCHEDULED_RUN_MINUTE) :=
  init_state_if_needed_none s now h

/-- C4 witness: from the empty state at `now = 0` (midnight, before 06:01) the
initializer picks today's 06:01 = 21660; at `now = 30000` (08:20, after 06:01)
it picks tomorrow's 06:01 = 108060. -/
theorem init_sets_today_or_tomorrow_witness :
    (init_state_if_needed 0 emptyState).next_expected_run = some 21660 ∧
    (init_state_if_needed 30000 emptyState).next_expected_run = some 108060 :=
  ⟨(init_sets_today_or_tomorrow emptyState 0 rfl).trans (by decide),
    (init_sets_today_or_tomorrow emptyState 30000 rfl).trans (by decide)⟩

/-- C5: the daily scheduler returns the reference's date plus one day at the
configured time-of-day, which is always strictly greater than the reference
(always tomorrow, never later today), and `save_successful_run` at `T` sets
`next_expected_run` to exactly that scheduler output for `T`. -/
theorem daily_scheduler_tomorrow (t : Nat) (s : PyState) :
    get_next_scheduled_time t =
      combine (date t + 1) SCHEDULED_RUN_HOUR SCHEDULED_RUN_MINUTE ∧
    t < get_next_scheduled_time t ∧
    date (get_next_scheduled_time t) = date t + 1 ∧
    (save_successful_run t s).next_expected_run = some (get_next_scheduled_time t) ∧
    (save_successful_run t s).last_successful_run = some t :=
  ⟨rfl, lt_get_next_scheduled_time t, date_get_next_scheduled_time t, rfl, rfl⟩

/-- C6: migration of the legacy `last_run_date` field: when only the legacy
date-only field is present, `last_successful_run` becomes that date combined
with the configured daily time-of-day and the legacy field is removed; when
the modern field already exists the migration changes nothing, and migration
is idempotent (it runs at most once). -/
theorem legacy_migration (s : PyState) :
    (∀ d, s.last_run_date = some d → s.last_successful_run = none →
      migrate_legacy_state s =
        { s with
          last_successful_run :=
            some (combine d SCHEDULED_RUN_HOUR SCHEDULED_RUN_MINUTE)
          last_run_date := none }) ∧
    (∀ x, s.last_successful_run = some x → migrate_legacy_state s = s) ∧
    migrate_legacy_state (migrate_legacy_state s) = migrate_legacy_state s := by
  refine ⟨?_, ?_, ?_⟩
  · intro d hd hl
    simp [migrate_legacy_state, hd, hl]
  · intro x hx
    cases hld : s.last_run_date <;> simp [migrate_legacy_state, hld, hx]
  · cases hld : s.last_run_date <;> cases hls : s.last_successful_run <;>
      simp [migrate_legacy_state, hld, hls]

/-- C6 witness: a state holding only the legacy date (day 5) migrates to
`last_successful_run = combine 5 06:01` with the legacy field removed. -/
theorem legacy_migration_witness :
    migrate_legacy_state
        { last_run_date := some 5
          last_successful_run := none
          next_expected_run := none
          last_successful_weekly_run := none
          next_expected_weekly_run := none } =
      { last_run_date := none
        last_successful_run := some (combine 5 SCHEDULED_RUN_HOUR SCHEDULED_RUN_MINUTE)
        next_expected_run := none
        last_successful_weekly_run := none
        next_expected_weekly_run := none } :=
  (legacy_migration
      { last_run_date := some 5
        last_successful_run := none
        next_expected_run := none
        last_successful_weekly_run := none
        next_expected_weekly_run := none }).1 5 rfl rfl

/-- C7: for a missing or corrupt store file, `load_state` returns the empty
mapping rather than raising, after which both deadlines are re-initialized
from the current time (daily to today/tomorrow at the configured time, weekly
to a present value). -/
theorem load_state_fails_soft (f : StateFile) (now : Nat)
    (h : f = StateFile.missing ∨ f = StateFile.corrupt) :
    load_state f = emptyState ∧
    (init_state_if_needed now (load_state f)).next_expected_run =
      some (if now < combine (date now) SCHEDULED_RUN_HOUR SCHEDULED_RUN_MINUTE
        then combine (date now) SCHEDULED_RUN_HOUR SCHEDULED_RUN_MINUTE
        else combine (date now + 1) SCHEDULED_RUN_HOUR SCHEDULED_RUN_MINUTE) ∧
    (init_weekly_state_if_needed now
        (init_state_if_needed now (load_state f))).next_expected_weekly_run =
      some (if now < this_saturday_scheduled now then this_saturday_scheduled now
        else get_next_weekly_scheduled_time now) := by
  have hload : load_state f = emptyState := by
    rcases h with h | h <;> rw [h] <;> rfl
  refine ⟨hload, ?_, ?_⟩
  · rw [hload]
    exact init_state_if_needed_none emptyState now rfl
  · rw [hload]
    refine init_weekly_none_value _ now ?_
    rw [init_preserves_weekly]
    rfl

/-- C7 witness: the missing-file case at `now = 30000`. -/
theorem load_state_fails_soft_witness :
    load_state StateFile.missing = emptyState ∧
    (init_state_if_needed 30000 (load_state StateFile.missing)).next_expected_run =
      some 108060 ∧
    (init_weekly_state_if_needed 30000
      (init_state_if_needed 30000 (load_state StateFile.missing))).next_expected_weekly_run =
      some 208800 := by
  obtain ⟨h1, h2, h3⟩ := load_state_fails_soft StateFile.missing 30000 (Or.inl rfl)
  exact ⟨h1, h2.trans (by decide), h3.trans (by decide)⟩

/-- C8: `save_state` writes the complete serialization of the whole mapping,
replacing the file content rather than patching it: the full write parses back
to exactly the saved mapping (no field is dropped), and no strict prefix of
the write — the residue of an interruption mid-write — parses as a mapping at
all, so a torn write can never be read back as a half-updated state. -/
theorem save_state_full_replacement (m : List (String × String)) :
    parse_obj (serialize_obj m) = some m ∧
    ∀ k, k < (serialize_obj m).length →
      parse_obj ((serialize_obj m).take k) = none := by
  constructor
  · simp [parse_obj, serialize_obj, parse_entries_serialize]
  · intro k hk
    cases k with
    | zero => rfl
    | succ k' =>
      simp only [serialize_obj, List.take_succ_cons, parse_obj]
      exact parse_entries_take m k' (by simpa [serialize_obj] using hk)

/-- C8 witness: a one-entry mapping round-trips, and its length-2 torn prefix
does not parse. -/
theorem save_state_full_replacement_witness :
    parse_obj (serialize_obj [("last_successful_run", "2026-01-05T06:03:00")]) =
      some [("last_successful_run", "2026-01-05T06:03:00")] ∧
    parse_obj ((serialize_obj [("last_successful_run", "2026-01-05T06:03:00")]).take 2) =
      none :=
  ⟨(save_state_full_replacement [("last_successful_run", "2026-01-05T06:03:00")]).1,
    (save_state_full_replacement [("last_successful_run", "2026-01-05T06:03:00")]).2 2
      (by decide)⟩

/-- C1: for a deadline D with no success recorded at or after D and the
persisted state unchanged, any nonempty run of watchdog evaluations at clock
values past D + grace sends exactly one missed-deadline alert: the first tick
alerts, and every further tick is deduplicated by the deadline value. -/
theorem missed_deadline_alerts_exactly_once (s : PyState) (D : Nat) (ticks : List Nat)
    (hD : s.next_expected_run = some D)
    (hls : ∀ ls, s.last_successful_run = some ls → ls < D)
    (hpast : ∀ t ∈ ticks, D + GRACE_PERIOD_MINUTES * 60 < t)
    (hne : ticks ≠ []) :
    (run_watchdog_ticks s tracker0 ticks).2 = 1 := by
  cases ticks with
  | nil => exact absurd rfl hne
  | cons t ts =>
    have h1 := watchdog_tick_first_alert t s D tracker0 hD hls
      (hpast t (List.mem_cons_self t ts)) (by simp [tracker0])
    simp [run_watchdog_ticks, h1, run_watchdog_ticks_armed s D ts hD]

/-- C1 witness: deadline 06:01 of day 0 (21660), grace 600 s; three ticks at
22261, 22322 and 25260 (06:11:01, 06:12:02, 07:01), all past the limit 22260,
with no success on record: exactly one alert in total. -/
theorem missed_deadline_alerts_exactly_once_witness :
    (run_watchdog_ticks
        { last_run_date := none
          last_successful_run := none
          next_expected_run := some 21660
          last_successful_weekly_run := none
          next_expected_weekly_run := none }
        tracker0 [22261, 22322, 25260]).2 = 1 :=
  missed_deadline_alerts_exactly_once _ 21660 [22261, 22322, 25260] rfl
    (fun _ h => Option.noConfusion h) (by decide) (by decide)

/-- C2 counterexample: the claim says the Cadence Watchdog rolls a missed
deadline forward to the next occurrence of the cadence, so that consecutive
missed deadlines each produce their own alert.  In the code no watchdog pass
ever writes the state: with the daily deadline at 21660 (day 0, 06:01) and the
scheduled job failing on day 0 and day 1 — so the clock passes two daily
occurrences with no success — the loop sends exactly one alert in total, and
`next_expected_run` is still 21660 at the end, never rolled forward. -/
theorem watchdog_never_rolls_deadline_counterexample :
    run_loop
        ({ last_run_date := none
           last_successful_run := none
           next_expected_run := some 21660
           last_successful_weekly_run := none
           next_expected_weekly_run := some 208800 }, tracker0, tracker0)
        [(21660, SupEvent.dailyFailure), (22320, SupEvent.tick),
          (108060, SupEvent.dailyFailure), (108720, SupEvent.tick)] =
      (({ last_run_date := none
          last_successful_run := none
          next_expected_run := some 21660
          last_successful_weekly_run := none
          next_expected_weekly_run := some 208800 },
        { alert_sent_for_current_deadline := true, current_deadline := some 21660 },
        tracker0), 1) := by
  decide

/-- C2 (amended): once initialized, `next_expected_run` and
`next_expected_weekly_run` are present and stay present, and they only advance
forward in time; but they advance ONLY when a job success is recorded
(`save_successful_run` / `save_successful_weekly_run`) — the Cadence Watchdog
never rolls a missed deadline forward, so while the job keeps failing the
stored deadline stays at the stuck value (and, by the dedup key, only one
alert is sent for it).  Initialization establishes presence and the
deadline-bound invariant; every loop event preserves both, changes the fields
only on the corresponding success event, and never moves them backwards. -/
theorem deadlines_present_and_advance_only_on_success
    (s0 s : PyState) (t t' : Nat) (e : SupEvent)
    (hd : s.next_expected_run.isSome = true)
    (hw : s.next_expected_weekly_run.isSome = true)
    (hinv : deadline_bounds t s) (htt : t ≤ t') :
    ((init_weekly_state_if_needed t
        (init_state_if_needed t s0)).next_expected_run.isSome = true ∧
      (init_weekly_state_if_needed t
        (init_state_if_needed t s0)).next_expected_weekly_run.isSome = true ∧
      (deadline_bounds t s0 →
        deadline_bounds t (init_weekly_state_if_needed t (init_state_if_needed t s0)))) ∧
    ((apply_event t' e s).next_expected_run.isSome = true ∧
      (apply_event t' e s).next_expected_weekly_run.isSome = true) ∧
    deadline_bounds t' (apply_event t' e s) ∧
    (∀ nr nr', s.next_expected_run = some nr →
      (apply_event t' e s).next_expected_run = some nr' → nr ≤ nr') ∧
    (∀ nw nw', s.next_expected_weekly_run = some nw →
      (apply_event t' e s).next_expected_weekly_run = some nw' → nw ≤ nw') ∧
    ((apply_event t' e s).next_expected_run ≠ s.next_expected_run →
      e = SupEvent.dailySuccess) ∧
    ((apply_event t' e s).next_expected_weekly_run ≠ s.next_expected_weekly_run →
      e = SupEvent.weeklySuccess) := by
  obtain ⟨hbd, hbw⟩ := hinv
  refine ⟨⟨?_, init_weekly_next_isSome t _, ?_⟩, ?_⟩
  · rw [init_weekly_preserves_daily]
    exact init_daily_next_isSome t s0
  · intro hb0
    constructor
    · intro nr hnr
      rw [init_weekly_preserves_daily] at hnr
      exact init_daily_bound t s0 hb0.1 nr hnr
    · intro nw hnw
      refine init_weekly_bound t _ ?_ nw hnw
      intro x hx
      rw [init_preserves_weekly] at hx
      exact hb0.2 x hx
  cases e with
  | dailySuccess =>
    refine ⟨⟨rfl, hw⟩, ⟨?_, ?_⟩, ?_, ?_, ?_, ?_⟩
    · intro nr hnr
      exact Nat.le_of_eq
        (Option.some.inj (hnr : some (get_next_scheduled_time t') = some nr)).symm
    · intro nw hnw
      exact Nat.le_trans (hbw nw hnw) (get_next_weekly_scheduled_time_mono htt)
    · intro nr nr' hnr hnr'
      rw [show (apply_event t' SupEvent.dailySuccess s).next_expected_run =
        some (get_next_scheduled_time t') from rfl, Option.some.injEq] at hnr'
      exact hnr' ▸ Nat.le_trans (hbd nr hnr) (get_next_scheduled_time_mono htt)
    · intro nw nw' hnw hnw'
      have : nw = nw' := Option.some.inj ((hnw.symm.trans hnw'))
      exact this ▸ Nat.le_refl _
    · intro _
      rfl
    · intro hne
      exact absurd rfl hne
  | weeklySuccess =>
    refine ⟨⟨hd, rfl⟩, ⟨?_, ?_⟩, ?_, ?_, ?_, ?_⟩
    · intro nr hnr
      exact Nat.le_trans (hbd nr hnr) (get_next_scheduled_time_mono htt)
    · intro nw hnw
      exact Nat.le_of_eq
        (Option.some.inj (hnw : some (get_next_weekly_scheduled_time t') = some nw)).symm
    · intro nr nr' hnr hnr'
      have : nr = nr' := Option.some.inj ((hnr.symm.trans hnr'))
      exact this ▸ Nat.le_refl _
    · intro nw nw' hnw hnw'
      rw [show (apply_event t' SupEvent.weeklySuccess s).next_expected_weekly_run =
        some (get_next_weekly_scheduled_time t') from rfl, Option.some.injEq] at hnw'
      exact hnw' ▸ Nat.le_trans (hbw nw hnw) (get_next_weekly_scheduled_time_mono htt)
    · intro hne
      exact absurd rfl hne
    · intro _
      rfl
  | tick =>
    refine ⟨⟨hd, hw⟩, ⟨?_, ?_⟩, ?_, ?_, ?_, ?_⟩
    · intro nr hnr
      exact Nat.le_trans (hbd nr hnr) (get_next_scheduled_time_mono htt)
    · intro nw hnw
      exact Nat.le_trans (hbw nw hnw) (get_next_weekly_scheduled_time_mono htt)
    · intro nr nr' hnr hnr'
      exact (Option.some.inj (hnr.symm.trans hnr')) ▸ Nat.le_refl _
    · intro nw nw' hnw hnw'
      exact (Option.some.inj (hnw.symm.trans hnw')) ▸ Nat.le_refl _
    · intro hne
      exact absurd rfl hne
    · intro hne
      exact absurd rfl hne
  | dailyFailure =>
    refine ⟨⟨hd, hw⟩, ⟨?_, ?_⟩, ?_, ?_, ?_, ?_⟩
    · intro nr hnr
      exact Nat.le_trans (hbd nr hnr) (get_next_scheduled_time_mono htt)
    · intro nw hnw
      exact Nat.le_trans (hbw nw hnw) (get_next_weekly_scheduled_time_mono htt)
    · intro nr nr' hnr hnr'
      exact (Option.some.inj (hnr.symm.trans hnr')) ▸ Nat.le_refl _
    · intro nw nw' hnw hnw'
      exact (Option.some.inj (hnw.symm.trans hnw')) ▸ Nat.le_refl _
    · intro hne
      exact absurd rfl hne
    · intro hne
      exact absurd rfl hne
  | weeklyFailure =>
    refine ⟨⟨hd, hw⟩, ⟨?_, ?_⟩, ?_, ?_, ?_, ?_⟩
    · intro nr hnr
      exact Nat.le_trans (hbd nr hnr) (get_next_scheduled_time_mono htt)
    · intro nw hnw
      exact Nat.le_trans (hbw nw hnw) (get_next_weekly_scheduled_time_mono htt)
    · intro nr nr' hnr hnr'
      exact (Option.some.inj (hnr.symm.trans hnr')) ▸ Nat.le_refl _
    · intro nw nw' hnw hnw'
      exact (Option.some.inj (hnw.symm.trans hnw')) ▸ Nat.le_refl _
    · intro hne
      exact absurd rfl hne
    · intro hne
      exact absurd rfl hne

/-- C2 witness: the amended invariant applied at a concrete state (daily
deadline 21660, weekly 208800, satisfying the bound at time 0) and a daily
success at time 5: both deadline fields remain present. -/
theorem deadlines_present_and_advance_only_on_success_witness :
    (apply_event 5 SupEvent.dailySuccess
        { last_run_date := none
          last_successful_run := none
          next_expected_run := some 21660
          last_successful_weekly_run := none
          next_expected_weekly_run := some 208800 }).next_expected_run.isSome = true ∧
    (apply_event 5 SupEvent.dailySuccess
        { last_run_date := none
          last_successful_run := none
          next_expected_run := some 21660
          last_successful_weekly_run := none
          next_expected_weekly_run := some 208800 }).next_expected_weekly_run.isSome =
      true :=
  (deadlines_present_and_advance_only_on_success emptyState
      { last_run_date := none
        last_successful_run := none
        next_expected_run := some 21660
        last_successful_weekly_run := none
        next_expected_weekly_run := some 208800 }
      0 5 SupEvent.dailySuccess rfl rfl
      ⟨fun nr hnr => by
          obtain rfl : (21660 : Nat) = nr := Option.some.inj hnr
          decide,
        fun nw hnw => by
          obtain rfl : (208800 : Nat) = nw := Option.some.inj hnw
          decide⟩
      (by decide)).2.1

/-- C9: on a liveness-check failure, if credentials are configured and
automatic re-authentication succeeds the heartbeat returns success with zero
alerts; if re-authentication fails or no credentials are configured it sends
exactly one alert and returns failure; and in every case the persisted
SupervisorState is left untouched. -/
theorem heartbeat_alerts_only_when_recovery_fails (env : HbEnv) (s : PyState)
    (h : liveness_passes env = false) :
    ((env.creds_configured && env.auto_login_ok) = true →
      heartbeat_check env s = (true, 0, s)) ∧
    ((env.creds_configured && env.auto_login_ok) = false →
      heartbeat_check env s = (false, 1, s)) ∧
    (heartbeat_check env s).2.2 = s := by
  refine ⟨?_, ?_, ?_⟩ <;>
    cases hc : env.creds_configured && env.auto_login_ok <;>
    simp [heartbeat_check, h, hc]

/-- C9 witness: a dead browser session with no credentials configured: the
heartbeat sends exactly one alert, returns failure, and leaves the state
unchanged. -/
theorem heartbeat_alerts_only_when_recovery_fails_witness :
    heartbeat_check
        { browser_running := false
          reports_nav_ok := false
          login_redirect_after_reports := false
          dashboard_nav_ok := false
          login_redirect_after_dashboard := false
          dashboard_marker_visible := false
          login_form_in_content := false
          creds_configured := false
          auto_login_ok := false } emptyState = (false, 1, emptyState) :=
  (heartbeat_alerts_only_when_recovery_fails _ emptyState (by decide)).2.1 (by decide)

/-- C10: the two cadences record success under different conditions.  After
the daily report-generation steps succeed, `last_successful_run` and
`next_expected_run` are updated for every email outcome, and no daily
missed-run alert fires up to the new deadline's grace limit; after the weekly
report-generation steps succeed, the weekly fields are updated only when the
email send reports success, so with any other email outcome a later weekly
watchdog evaluation past the old deadline's grace limit still alerts (the run
counts as a miss). -/
theorem weekly_success_requires_email_success
    (outcome : EmailOutcome) (now : Nat) (s : PyState) :
    ((run_daily_report_email_phase outcome now s).last_successful_run = some now ∧
      (run_daily_report_email_phase outcome now s).next_expected_run =
        some (get_next_scheduled_time now)) ∧
    ((run_weekly_report_email_phase outcome now s).last_successful_weekly_run =
      if outcome = EmailOutcome.sent then some now else s.last_successful_weekly_run) ∧
    ((run_weekly_report_email_phase outcome now s).next_expected_weekly_run =
      if outcome = EmailOutcome.sent then some (get_next_weekly_scheduled_time now)
      else s.next_expected_weekly_run) ∧
    (∀ D t, s.next_expected_weekly_run = some D →
      (∀ ls, s.last_successful_weekly_run = some ls → ls < D) →
      outcome ≠ EmailOutcome.sent →
      D + WEEKLY_GRACE_PERIOD_MINUTES * 60 < t →
      (weekly_watchdog_tick t (run_weekly_report_email_phase outcome now s)
        tracker0).2 = 1) ∧
    (∀ t, t ≤ get_next_scheduled_time now + GRACE_PERIOD_MINUTES * 60 →
      (watchdog_tick t (run_daily_report_email_phase outcome now s) tracker0).2 = 0) := by
  refine ⟨?_, ?_, ?_, ?_, ?_⟩
  · cases outcome <;> exact ⟨rfl, rfl⟩
  · cases outcome <;> simp [run_weekly_report_email_phase, save_successful_weekly_run]
  · cases outcome <;> simp [run_weekly_report_email_phase, save_successful_weekly_run]
  · intro D t hD hls hne hpast
    cases outcome with
    | sent => exact absurd rfl hne
    | sendFailed => exact weekly_watchdog_tick_unsat_alert t s D hD hls hpast
    | notConfigured => exact weekly_watchdog_tick_unsat_alert t s D hD hls hpast
    | sendError => exact weekly_watchdog_tick_unsat_alert t s D hD hls hpast
  · intro t ht
    cases outcome <;>
      rw [watchdog_tick_not_past t _ (get_next_scheduled_time now) tracker0 rfl ht]

/-- C10 witness: with the weekly deadline 208800 on record and no weekly
success, a weekly run whose email send failed leaves the weekly fields alone,
so a weekly watchdog evaluation at 209401 (past 208800 + 600) alerts; the
daily run with the same failed email outcome still records its success, so a
daily watchdog evaluation at 100000 (before the new deadline's limit) sends
nothing. -/
theorem weekly_success_requires_email_success_witness :
    (weekly_watchdog_tick 209401
        (run_weekly_report_email_phase EmailOutcome.sendFailed 100
          { last_run_date := none
            last_successful_run := none
            next_expected_run := some 21660
            last_successful_weekly_run := none
            next_expected_weekly_run := some 208800 }) tracker0).2 = 1 ∧
    (watchdog_tick 100000
        (run_daily_report_email_phase EmailOutcome.sendFailed 100
          { last_run_date := none
            last_successful_run := none
            next_expected_run := some 21660
            last_successful_weekly_run := none
            next_expected_weekly_run := some 208800 }) tracker0).2 = 0 :=
  ⟨(weekly_success_requires_email_success EmailOutcome.sendFailed 100
        { last_run_date := none
          last_successful_run := none
          next_expected_run := some 21660
          last_successful_weekly_run := none
          next_expected_weekly_run := some 208800 }).2.2.2.1 208800 209401 rfl
      (fun _ h => Option.noConfusion h) (by decide) (by decide),
    (weekly_success_requires_email_success EmailOutcome.sendFailed 100
        { last_run_date := none
          last_successful_run := none
          next_expected_run := some 21660
          last_successful_weekly_run := none
          next_expected_weekly_run := some 208800 }).2.2.2.2 100000 (by decide)⟩

end REIAutomation
